import Mathlib

/-!
Shallow embedding of the resource lifecycle logic of the
terraform-provider-ovh.hcp repository (src/internal/provider), together
with theorems settling the frozen claims about its specification.

The embedding follows the Go source:
  - JSON values passed to and from the remote client are modelled by `JVal`
    and objects by association lists (`JObj`), mirroring
    map[string]interface_ in insertion order.
  - fallible remote calls return `Except RemoteErr`; a Go runtime panic
    (failed type assertion) is a distinct `CreateOutcome.panicked` value.
  - the polling loop waitForClusterReady (resource_nomad_cluster.go,
    lines 274-297) is modelled tick by tick: the ticker fires every 30 s,
    the deadline after 30 min; at the tie between the 60th tick and the
    deadline, the deadline branch is taken (the Go select picks either
    arm; the choice shifts the read count by at most one tick).
-/

/-- Model of a JSON value as threaded through map[string]interface_ in the
Go source. -/
inductive JVal where
  | str (s : String)
  | int (n : Int)
  | bool (b : Bool)
  | arr (xs : List JVal)
  | obj (kvs : List (String × JVal))
deriving Repr

/-- Model of a JSON object: an association list in insertion order,
mirroring the literal map construction in the Go source. -/
def JObj : Type := List (String × JVal)

/-- Go map indexing result [k] : the first binding of the key, if any. -/
def getKey (o : JObj) (k : String) : Option JVal :=
  (o.find? (fun p => p.1 == k)).map (fun p => p.2)

/-- Extraction of a string with the zero value "" as Go default. -/
def asStr : Option JVal → String
  | some (JVal.str s) => s
  | _ => ""

/-- Extraction of an integer with the zero value 0 as Go default. -/
def asInt : Option JVal → Int
  | some (JVal.int n) => n
  | _ => 0

/-- Extraction of a boolean with the zero value false as Go default. -/
def asBool : Option JVal → Bool
  | some (JVal.bool b) => b
  | _ => false

/-- Extraction of a tag map (the Go pattern: a type assertion to
map[string]interface_ followed by use as string values); non-object or
absent values yield the empty tag set. -/
def asTags : Option JVal → List (String × String)
  | some (JVal.obj kvs) =>
      kvs.filterMap (fun kv =>
        match kv.2 with
        | JVal.str s => some (kv.1, s)
        | _ => none)
  | _ => []

/-- Embedding of a tag map (string to string) as a JSON object. -/
def jTags (ts : List (String × String)) : JVal :=
  JVal.obj (ts.map (fun kv => (kv.1, JVal.str kv.2)))

/-- Classification of a remote call failure. The Go source never inspects
the class: it is carried so that claims about the "not found" class can be
stated. -/
inductive RemoteErr where
  | notFound
  | other
deriving DecidableEq, Repr

/-- Terminal outcome of the polling loop waitForClusterReady:
return nil (ready), the timeout error, or ctx.Err() on cancellation. -/
inductive PollOutcome where
  | ready
  | timeout
  | cancelled
deriving DecidableEq, Repr

/-- Result of a polling run: its outcome together with the number of
remote Get calls the loop performed. -/
structure PollResult where
  outcome : PollOutcome
  reads : Nat
deriving DecidableEq, Repr

/-- Check from the tick branch of waitForClusterReady: the cluster
payload has a string "status" field equal to "READY". -/
def isReadyObj (o : JObj) : Bool :=
  match getKey o "status" with
  | some (JVal.str s) => s == "READY"
  | _ => false

/-- Check whether a per-tick Get result reports the terminal READY
status; a failed Get never does. -/
def isReadyRead : Except RemoteErr JObj → Bool
  | Except.error _ => false
  | Except.ok o => isReadyObj o

/-- Ticker interval of waitForClusterReady: 30 seconds. -/
def tickSeconds : Nat := 30

/-- Overall deadline of waitForClusterReady: 30 minutes. -/
def timeoutSeconds : Nat := 30 * 60

/-- Number of ticker firings strictly before the deadline: ticks occur at
k * tickSeconds for k = 1, 2, ...; the 60th coincides with the deadline
and the deadline branch is taken there. -/
def ticksBeforeDeadline : Nat := (timeoutSeconds - 1) / tickSeconds

/-- Polling loop of waitForClusterReady. `k` is the index of the next
tick, `fuel` the number of ticks remaining before the deadline;
`cancelAt = some j` means ctx.Done fires during the wait for tick j.
Each iteration waits for the earliest of cancellation, the next tick and
the deadline; on a tick it performs Get, swallows a failed Get, returns
ready exactly on a "READY" status, and otherwise keeps waiting. -/
def pollLoop (readAt : Nat → Except RemoteErr JObj) (cancelAt : Option Nat) :
    Nat → Nat → PollResult
  | k, 0 =>
      if cancelAt = some k then ⟨PollOutcome.cancelled, 0⟩
      else ⟨PollOutcome.timeout, 0⟩
  | k, fuel + 1 =>
      if cancelAt = some k then ⟨PollOutcome.cancelled, 0⟩
      else
        match readAt k with
        | Except.error _ =>
            let r := pollLoop readAt cancelAt (k + 1) fuel
            ⟨r.outcome, r.reads + 1⟩
        | Except.ok o =>
            if isReadyObj o then ⟨PollOutcome.ready, 1⟩
            else
              let r := pollLoop readAt cancelAt (k + 1) fuel
              ⟨r.outcome, r.reads + 1⟩

/-- Model of waitForClusterReady (resource_nomad_cluster.go, lines
274-297): poll from tick 1 with the full budget of ticks before the
deadline. -/
def waitForClusterReady (readAt : Nat → Except RemoteErr JObj)
    (cancelAt : Option Nat) : PollResult :=
  pollLoop readAt cancelAt 1 ticksBeforeDeadline

/-- Settable (non-computed) attributes of the Nomad cluster resource, as
declared in the schema of resourceNomadCluster (resource_nomad_cluster.go,
lines 26-141); the computed attributes server_endpoints, ui_url, status
and created_at are excluded. -/
structure NomadSpec where
  name : String
  region : String
  server_count : Int
  client_count : Int
  instance_type : String
  datacenter : String
  vault_integration : Bool
  consul_integration : Bool
  acl_enabled : Bool
  tls_enabled : Bool
  web3_enabled : Bool
  kata_containers : Bool
  gpu_support : Bool
  tags : List (String × String)
deriving DecidableEq, Repr

/-- ForceNew flags of the Nomad schema: only name and region are marked
ForceNew (immutable, force-replace); every other attribute is mutable. -/
def nomadForceNew (attr : String) : Bool :=
  attr == "name" || attr == "region"

/-- Remote payload built by resourceNomadClusterCreate (lines 156-171):
each settable attribute under its camelCase remote name, in source
order. -/
def nomadToRemotePayload (s : NomadSpec) : JObj :=
  [("name", JVal.str s.name),
   ("region", JVal.str s.region),
   ("serverCount", JVal.int s.server_count),
   ("clientCount", JVal.int s.client_count),
   ("instanceType", JVal.str s.instance_type),
   ("datacenter", JVal.str s.datacenter),
   ("vaultIntegration", JVal.bool s.vault_integration),
   ("consulIntegration", JVal.bool s.consul_integration),
   ("aclEnabled", JVal.bool s.acl_enabled),
   ("tlsEnabled", JVal.bool s.tls_enabled),
   ("web3Enabled", JVal.bool s.web3_enabled),
   ("kataContainers", JVal.bool s.kata_containers),
   ("gpuSupport", JVal.bool s.gpu_support),
   ("tags", jTags s.tags)]

/-- Settable part of the field population done by resourceNomadClusterRead
(lines 202-222): each local attribute set from its camelCase remote name;
tags only when the remote value is an object. -/
def nomadFromRemotePayload (o : JObj) : NomadSpec where
  name := asStr (getKey o "name")
  region := asStr (getKey o "region")
  server_count := asInt (getKey o "serverCount")
  client_count := asInt (getKey o "clientCount")
  instance_type := asStr (getKey o "instanceType")
  datacenter := asStr (getKey o "datacenter")
  vault_integration := asBool (getKey o "vaultIntegration")
  consul_integration := asBool (getKey o "consulIntegration")
  acl_enabled := asBool (getKey o "aclEnabled")
  tls_enabled := asBool (getKey o "tlsEnabled")
  web3_enabled := asBool (getKey o "web3Enabled")
  kata_containers := asBool (getKey o "kataContainers")
  gpu_support := asBool (getKey o "gpuSupport")
  tags := asTags (getKey o "tags")

/-- Settable (non-computed) attributes of the Vault cluster resource
(resource_vault_cluster.go, schema lines 26-134); the computed attributes
cluster_url, ui_url, root_token, unseal_keys and status are excluded. -/
structure VaultSpec where
  name : String
  region : String
  node_count : Int
  instance_type : String
  storage_type : String
  auto_unseal : Bool
  audit_enabled : Bool
  performance_replication : Bool
  disaster_recovery : Bool
  web3_secrets : Bool
  kubernetes_auth : Bool
  tags : List (String × String)
deriving DecidableEq, Repr

/-- Remote payload built by resourceVaultClusterCreate (lines 140-153). -/
def vaultToRemotePayload (s : VaultSpec) : JObj :=
  [("name", JVal.str s.name),
   ("region", JVal.str s.region),
   ("nodeCount", JVal.int s.node_count),
   ("instanceType", JVal.str s.instance_type),
   ("storageType", JVal.str s.storage_type),
   ("autoUnseal", JVal.bool s.auto_unseal),
   ("auditEnabled", JVal.bool s.audit_enabled),
   ("performanceReplication", JVal.bool s.performance_replication),
   ("disasterRecovery", JVal.bool s.disaster_recovery),
   ("web3Secrets", JVal.bool s.web3_secrets),
   ("kubernetesAuth", JVal.bool s.kubernetes_auth),
   ("tags", jTags s.tags)]

/-- Settable part of the field population done by resourceVaultClusterRead
(lines 180-205). -/
def vaultFromRemotePayload (o : JObj) : VaultSpec where
  name := asStr (getKey o "name")
  region := asStr (getKey o "region")
  node_count := asInt (getKey o "nodeCount")
  instance_type := asStr (getKey o "instanceType")
  storage_type := asStr (getKey o "storageType")
  auto_unseal := asBool (getKey o "autoUnseal")
  audit_enabled := asBool (getKey o "auditEnabled")
  performance_replication := asBool (getKey o "performanceReplication")
  disaster_recovery := asBool (getKey o "disasterRecovery")
  web3_secrets := asBool (getKey o "web3Secrets")
  kubernetes_auth := asBool (getKey o "kubernetesAuth")
  tags := asTags (getKey o "tags")

/-- How a CreateContext invocation ends: a normal return (nil
diagnostics), a returned error diagnostic, or a Go runtime panic (the
unchecked type assertion on the response id). -/
inductive CreateOutcome where
  | ok
  | errored
  | panicked
deriving DecidableEq, Repr

/-- Observable effects of a Create invocation: how it ended, the stored
identity (d.Id at return; "" when never set or cleared), whether the
readiness poller was invoked, and whether any remote Delete call was
issued. -/
structure CreateResult where
  outcome : CreateOutcome
  storedId : String
  pollInvoked : Bool
  deleteIssued : Bool
deriving DecidableEq, Repr

/-- Remote behaviour driving one resourceNomadClusterCreate run: the
response to the single Post, the per-tick Get responses seen by the
poller, the tick during whose wait ctx.Done fires (if any), and the Get
response of the final resourceNomadClusterRead. -/
structure NomadClient where
  post : Except RemoteErr JObj
  pollRead : Nat → Except RemoteErr JObj
  cancelAt : Option Nat
  finalRead : Except RemoteErr JObj

/-- Model of resourceNomadClusterCreate (resource_nomad_cluster.go, lines
145-187): Post, the unchecked type assertion result ["id"].(string)
(panic unless the field is a string), d.SetId, waitForClusterReady, and
on polling success the trailing resourceNomadClusterRead (which clears
the id and errors when its Get fails). No branch issues a Delete. -/
def resourceNomadClusterCreate (c : NomadClient) : CreateResult :=
  match c.post with
  | Except.error _ => ⟨CreateOutcome.errored, "", false, false⟩
  | Except.ok result =>
      match getKey result "id" with
      | some (JVal.str clusterId) =>
          match (waitForClusterReady c.pollRead c.cancelAt).outcome with
          | PollOutcome.ready =>
              match c.finalRead with
              | Except.error _ => ⟨CreateOutcome.errored, "", true, false⟩
              | Except.ok _ => ⟨CreateOutcome.ok, clusterId, true, false⟩
          | _ => ⟨CreateOutcome.errored, clusterId, true, false⟩
      | _ => ⟨CreateOutcome.panicked, "", false, false⟩

/-- Remote behaviour driving one resourceVaultClusterCreate run: the
response to the Post and the Get response of the trailing
resourceVaultClusterRead. The Vault create path has no polling. -/
structure VaultClient where
  post : Except RemoteErr JObj
  finalRead : Except RemoteErr JObj

/-- Model of resourceVaultClusterCreate (resource_vault_cluster.go, lines
132-165): Post, the unchecked type assertion on result ["id"], d.SetId,
then directly resourceVaultClusterRead; waitForClusterReady is never
invoked. -/
def resourceVaultClusterCreate (c : VaultClient) : CreateResult :=
  match c.post with
  | Except.error _ => ⟨CreateOutcome.errored, "", false, false⟩
  | Except.ok result =>
      match getKey result "id" with
      | some (JVal.str clusterId) =>
          match c.finalRead with
          | Except.error _ => ⟨CreateOutcome.errored, "", false, false⟩
          | Except.ok _ => ⟨CreateOutcome.ok, clusterId, false, false⟩
      | _ => ⟨CreateOutcome.panicked, "", false, false⟩

/-- Observable effects of a Read invocation: whether an error diagnostic
was returned, the stored identity at return, and the repopulated settable
attributes (none when the Get failed). -/
structure ReadEffect where
  errored : Bool
  storedId : String
  populated : Option NomadSpec
deriving DecidableEq, Repr

/-- Model of resourceNomadClusterRead (resource_nomad_cluster.go, lines
189-225) on stored id `id`: when Get fails — with any error, the
not-found class included — it clears the id (d.SetId of the empty
string) and returns an error diagnostic; on success it keeps the id and
repopulates the attributes from the payload. -/
def resourceNomadClusterRead (id : String) (get : Except RemoteErr JObj) :
    ReadEffect :=
  match get with
  | Except.error _ => ⟨true, "", none⟩
  | Except.ok o => ⟨false, id, some (nomadFromRemotePayload o)⟩

/-- Observable effects of a Delete invocation. -/
structure DeleteEffect where
  errored : Bool
  storedId : String
deriving DecidableEq, Repr

/-- Model of resourceNomadClusterDelete (resource_nomad_cluster.go, lines
259-272) on stored id `id`: when the remote Delete fails — with any
error, the not-found class included — it returns an error diagnostic and
leaves the id stored; on success it clears the id and returns nil. -/
def resourceNomadClusterDelete (id : String) (del : Except RemoteErr Unit) :
    DeleteEffect :=
  match del with
  | Except.error _ => ⟨true, id⟩
  | Except.ok _ => ⟨false, ""⟩

/-- Update payload of resourceNomadClusterUpdate (resource_nomad_cluster.go,
lines 233-245): only server_count, client_count and tags are inspected
(d.HasChanges); when none of the three changed no Put is issued (`none`);
otherwise the payload holds exactly the changed ones of these three under
their remote names. -/
def nomadUpdatePayload (desired prior : NomadSpec) : Option JObj :=
  if desired.server_count ≠ prior.server_count ∨
      desired.client_count ≠ prior.client_count ∨
      desired.tags ≠ prior.tags then
    some
      ((if desired.server_count ≠ prior.server_count then
          [("serverCount", JVal.int desired.server_count)] else []) ++
       (if desired.client_count ≠ prior.client_count then
          [("clientCount", JVal.int desired.client_count)] else []) ++
       (if desired.tags ≠ prior.tags then
          [("tags", jTags desired.tags)] else []))
  else none

/-- Update payload of resourceVaultClusterUpdate (resource_vault_cluster.go,
lines 216-225): only node_count and tags are inspected. -/
def vaultUpdatePayload (desired prior : VaultSpec) : Option JObj :=
  if desired.node_count ≠ prior.node_count ∨ desired.tags ≠ prior.tags then
    some
      ((if desired.node_count ≠ prior.node_count then
          [("nodeCount", JVal.int desired.node_count)] else []) ++
       (if desired.tags ≠ prior.tags then
          [("tags", jTags desired.tags)] else []))
  else none

/-- Per-tick Get behaviour reporting the non-terminal PENDING status
forever. -/
def pendingRead : Nat → Except RemoteErr JObj :=
  fun _ => Except.ok [("status", JVal.str "PENDING")]

/-- Per-tick Get behaviour reporting the terminal-failure status FAILED
forever. -/
def failedRead : Nat → Except RemoteErr JObj :=
  fun _ => Except.ok [("status", JVal.str "FAILED")]

/-- Per-tick Get behaviour failing on every call. -/
def erroringRead : Nat → Except RemoteErr JObj :=
  fun _ => Except.error RemoteErr.other

/-- Concrete Nomad specification used as a base point for update
scenarios. -/
def nomadSpecBase : NomadSpec :=
  ⟨"test-nomad-cluster", "GRA", 3, 5, "s1-2", "dc1",
   true, true, true, true, false, false, false, []⟩

/-- Concrete Vault specification used as a base point for update
scenarios. -/
def vaultSpecBase : VaultSpec :=
  ⟨"test-vault-cluster", "GRA", 3, "s1-2", "consul",
   true, true, false, false, false, true, []⟩

theorem asTags_jTags (ts : List (String × String)) :
    asTags (some (jTags ts)) = ts := by
  induction ts with
  | nil => rfl
  | cons kv rest ih =>
      simpa [asTags, jTags, List.filterMap_cons] using ih

theorem pollLoop_step (readAt : Nat → Except RemoteErr JObj)
    (c : Option Nat) (k n : Nat) (hc : c ≠ some k)
    (hk : isReadyRead (readAt k) = false) :
    pollLoop readAt c k (n + 1) =
      ⟨(pollLoop readAt c (k + 1) n).outcome,
       (pollLoop readAt c (k + 1) n).reads + 1⟩ := by
  cases hr : readAt k with
  | error e => simp [pollLoop, hc, hr]
  | ok o =>
      have ho : isReadyObj o = false := by simpa [isReadyRead, hr] using hk
      simp [pollLoop, hc, hr, ho]

theorem pollLoop_none_timeout (readAt : Nat → Except RemoteErr JObj)
    (h : ∀ j, isReadyRead (readAt j) = false) :
    ∀ fuel k, pollLoop readAt none k fuel = ⟨PollOutcome.timeout, fuel⟩ := by
  intro fuel
  induction fuel with
  | zero => intro k; simp [pollLoop]
  | succ n ih =>
      intro k
      rw [pollLoop_step readAt none k n (by simp) (h k), ih (k + 1)]

theorem pollLoop_cancel (readAt : Nat → Except RemoteErr JObj) (m : Nat)
    (h : ∀ j, j < m → isReadyRead (readAt j) = false) :
    ∀ fuel k, k ≤ m → m ≤ k + fuel →
      pollLoop readAt (some m) k fuel = ⟨PollOutcome.cancelled, m - k⟩ := by
  intro fuel
  induction fuel with
  | zero =>
      intro k h1 h2
      have hm : m = k := le_antisymm (by simpa using h2) h1
      subst hm
      simp [pollLoop]
  | succ n ih =>
      intro k h1 h2
      by_cases hk : k = m
      · subst hk
        simp [pollLoop]
      · have hkm : k < m := lt_of_le_of_ne h1 (fun e => hk e)
        have harith : m - (k + 1) + 1 = m - k := by omega
        rw [pollLoop_step readAt (some m) k n
              (by simpa using fun e => hk e.symm) (h k hkm),
            ih (k + 1) hkm (by omega)]
        simp [harith]

theorem pollLoop_no_ready (readAt : Nat → Except RemoteErr JObj)
    (c : Option Nat) (h : ∀ j, isReadyRead (readAt j) = false) :
    ∀ fuel k, (pollLoop readAt c k fuel).outcome ≠ PollOutcome.ready := by
  intro fuel
  induction fuel with
  | zero =>
      intro k
      by_cases hc : c = some k <;> simp [pollLoop, hc]
  | succ n ih =>
      intro k
      by_cases hc : c = some k
      · simp [pollLoop, hc]
      · rw [pollLoop_step readAt c k n hc (h k)]
        exact ih (k + 1)

theorem pollLoop_congr (r1 r2 : Nat → Except RemoteErr JObj)
    (h1 : ∀ j, isReadyRead (r1 j) = false)
    (h2 : ∀ j, isReadyRead (r2 j) = false) (c : Option Nat) :
    ∀ fuel k, pollLoop r1 c k fuel = pollLoop r2 c k fuel := by
  intro fuel
  induction fuel with
  | zero => intro k; rfl
  | succ n ih =>
      intro k
      by_cases hc : c = some k
      · simp [pollLoop, hc]
      · rw [pollLoop_step r1 c k n hc (h1 k),
            pollLoop_step r2 c k n hc (h2 k), ih (k + 1)]

theorem create_no_delete (c : NomadClient) :
    (resourceNomadClusterCreate c).deleteIssued = false := by
  unfold resourceNomadClusterCreate
  repeat' split
  all_goals rfl

theorem vault_create_no_poll (c : VaultClient) :
    (resourceVaultClusterCreate c).pollInvoked = false := by
  unfold resourceVaultClusterCreate
  repeat' split
  all_goals rfl

/-- C3 counterexample: a client whose every Read reports the
terminal-failure status FAILED does not make the poller stop early — the
run keeps polling through all 59 pre-deadline ticks and ends in the
timeout outcome, with no FAILED transition and no error naming the
status (the loop compares the status against "READY" only). -/
theorem C3_counterexample :
    waitForClusterReady failedRead none =
        ⟨PollOutcome.timeout, ticksBeforeDeadline⟩ ∧
      ticksBeforeDeadline = 59 :=
  ⟨pollLoop_none_timeout failedRead (fun _ => rfl) ticksBeforeDeadline 1, rfl⟩

/-- C3 (amended): the poller recognizes no terminal-failure status; any
status other than READY — FAILED included — is treated as non-terminal,
and a run that never observes READY ends only in the timeout or the
cancellation outcome. -/
theorem C3_amended_theorem (readAt : Nat → Except RemoteErr JObj)
    (cancelAt : Option Nat) (h : ∀ j, isReadyRead (readAt j) = false) :
    (waitForClusterReady readAt cancelAt).outcome = PollOutcome.timeout ∨
      (waitForClusterReady readAt cancelAt).outcome = PollOutcome.cancelled := by
  have hnr : (waitForClusterReady readAt cancelAt).outcome ≠ PollOutcome.ready :=
    pollLoop_no_ready readAt cancelAt h ticksBeforeDeadline 1
  cases hx : (waitForClusterReady readAt cancelAt).outcome with
  | ready => exact absurd hx hnr
  | timeout => exact Or.inl rfl
  | cancelled => exact Or.inr rfl

/-- Witness for C3: the always-FAILED client never reads READY, so the
amended statement applies to it. -/
theorem C3_witness :
    (waitForClusterReady failedRead none).outcome = PollOutcome.timeout ∨
      (waitForClusterReady failedRead none).outcome = PollOutcome.cancelled :=
  C3_amended_theorem failedRead none (fun _ => rfl)

/-- C4: with a client that never reports the terminal READY status and no
cancellation, the poller terminates with the timeout outcome after
exactly the 59 ticks that precede the deadline, and the deadline is the
60th tick boundary: 60 ticks of 30 s are the 30-minute bound T, so the
run ends at T (within one tick interval). -/
theorem C4_poller_termination (readAt : Nat → Except RemoteErr JObj)
    (h : ∀ j, isReadyRead (readAt j) = false) :
    waitForClusterReady readAt none =
        ⟨PollOutcome.timeout, ticksBeforeDeadline⟩ ∧
      (ticksBeforeDeadline + 1) * tickSeconds = timeoutSeconds :=
  ⟨pollLoop_none_timeout readAt h ticksBeforeDeadline 1, by decide⟩

/-- Witness for C4 at the always-PENDING client. -/
theorem C4_witness :
    waitForClusterReady pendingRead none =
        ⟨PollOutcome.timeout, ticksBeforeDeadline⟩ ∧
      (ticksBeforeDeadline + 1) * tickSeconds = timeoutSeconds :=
  C4_poller_termination pendingRead (fun _ => rfl)

/-- C5: when ctx.Done fires during the wait for tick m of a run that has
not yet reached a terminal status, the poller returns the cancellation
outcome having performed exactly the m - 1 reads that preceded the
signal — it exits during the same inter-tick wait, hence within one tick
interval — and the Create path issues no remote Delete in any branch. -/
theorem C5_cancellation (c : NomadClient) (m : Nat)
    (hc : c.cancelAt = some m) (h1 : 1 ≤ m)
    (h2 : m ≤ ticksBeforeDeadline + 1)
    (hnr : ∀ j, j < m → isReadyRead (c.pollRead j) = false) :
    waitForClusterReady c.pollRead c.cancelAt =
        ⟨PollOutcome.cancelled, m - 1⟩ ∧
      (resourceNomadClusterCreate c).deleteIssued = false := by
  refine ⟨?_, create_no_delete c⟩
  rw [hc]
  have h59 : ticksBeforeDeadline = 59 := rfl
  exact pollLoop_cancel c.pollRead m hnr ticksBeforeDeadline 1 h1 (by omega)

/-- Witness for C5: cancellation during the wait for the third tick stops
the poller after exactly two reads, with no Delete issued. -/
theorem C5_witness :
    waitForClusterReady pendingRead (some 3) =
        ⟨PollOutcome.cancelled, 2⟩ ∧
      (resourceNomadClusterCreate
        ⟨Except.ok [("id", JVal.str "abc123")], pendingRead, some 3,
         Except.ok []⟩).deleteIssued = false :=
  C5_cancellation
    ⟨Except.ok [("id", JVal.str "abc123")], pendingRead, some 3, Except.ok []⟩
    3 rfl (by decide) (by decide) (fun _ _ => rfl)

/-- C10: a per-tick Get failure is silently swallowed (the loop merely
continues): the always-erroring client is observably identical to the
always-PENDING client — same outcome and same read count for every
cancellation behaviour — and with no cancellation the always-erroring
client runs to the timeout. -/
theorem C10_poll_errors_swallowed :
    (∀ cancelAt : Option Nat,
        waitForClusterReady erroringRead cancelAt =
          waitForClusterReady pendingRead cancelAt) ∧
      waitForClusterReady erroringRead none =
        ⟨PollOutcome.timeout, ticksBeforeDeadline⟩ :=
  ⟨fun c =>
      pollLoop_congr erroringRead pendingRead (fun _ => rfl) (fun _ => rfl) c
        ticksBeforeDeadline 1,
    pollLoop_none_timeout erroringRead (fun _ => rfl) ticksBeforeDeadline 1⟩

/-- C1 counterexample: a Vault cluster Create whose Post succeeds returns
successfully without ever invoking the readiness poller — the claim that
every resource kind polls on Create fails (the Vault, Consul, Boundary
and Packer create paths have no polling call at all). -/
theorem C1_counterexample :
    resourceVaultClusterCreate
        ⟨Except.ok [("id", JVal.str "abc123")], Except.ok []⟩ =
      ⟨CreateOutcome.ok, "abc123", false, false⟩ := rfl

/-- C1 (amended): only the Nomad cluster Create invokes the readiness
poller; the Vault create path (like Consul, Boundary and Packer) never
does. For the Nomad Create, when the Post succeeded with a string id and
polling does not end in the ready outcome, Create returns an error with
the remote id still stored, the poller invoked, and no Delete issued. -/
theorem C1_amended_theorem :
    (∀ cv : VaultClient, (resourceVaultClusterCreate cv).pollInvoked = false) ∧
      (∀ (c : NomadClient) (r : JObj) (id0 : String),
        c.post = Except.ok r →
        getKey r "id" = some (JVal.str id0) →
        (waitForClusterReady c.pollRead c.cancelAt).outcome ≠ PollOutcome.ready →
        resourceNomadClusterCreate c =
          ⟨CreateOutcome.errored, id0, true, false⟩) := by
  refine ⟨vault_create_no_poll, ?_⟩
  intro c r id0 hp hid hnr
  cases ho : (waitForClusterReady c.pollRead c.cancelAt).outcome with
  | ready => exact absurd ho hnr
  | timeout => simp [resourceNomadClusterCreate, hp, hid, ho]
  | cancelled => simp [resourceNomadClusterCreate, hp, hid, ho]

/-- Witness for C1: a Nomad Create whose Post yields id "abc123" and
whose polling reads always fail times out; the error is surfaced with
the id still stored and no Delete issued. -/
theorem C1_witness :
    resourceNomadClusterCreate
        ⟨Except.ok [("id", JVal.str "abc123")], erroringRead, none,
         Except.ok []⟩ =
      ⟨CreateOutcome.errored, "abc123", true, false⟩ :=
  C1_amended_theorem.2
    ⟨Except.ok [("id", JVal.str "abc123")], erroringRead, none, Except.ok []⟩
    [("id", JVal.str "abc123")] "abc123" rfl rfl (by decide)

/-- C2 (code bug): when the Post succeeds but its response object has no
string "id" field, Create does not return an error value: the unchecked
Go type assertion result ["id"].(string) panics. Both the Nomad and the
Vault create paths crash on the empty response object. -/
theorem C2_missing_id_panics :
    (resourceNomadClusterCreate
        ⟨Except.ok [], erroringRead, none, Except.error RemoteErr.other⟩).outcome =
        CreateOutcome.panicked ∧
      (resourceVaultClusterCreate
        ⟨Except.ok [], Except.error RemoteErr.other⟩).outcome =
        CreateOutcome.panicked :=
  ⟨rfl, rfl⟩

/-- C6 counterexample: a Read whose Get fails with the not-found class
returns an error diagnostic (errored = true), while the claim demands a
non-error absence signal; the stored identity is cleared as the claim
says. -/
theorem C6_counterexample :
    resourceNomadClusterRead "abc123" (Except.error RemoteErr.notFound) =
      ⟨true, "", none⟩ := rfl

/-- C6 (amended): on any Get failure — the not-found class and every
other class alike — Read clears the stored identity and returns an
error; the not-found class is not special-cased. Only a successful Get
avoids an error, keeping the identity and repopulating the attributes. -/
theorem C6_amended_theorem :
    (∀ (id : String) (e : RemoteErr),
        resourceNomadClusterRead id (Except.error e) = ⟨true, "", none⟩) ∧
      (∀ (id : String) (o : JObj),
        resourceNomadClusterRead id (Except.ok o) =
          ⟨false, id, some (nomadFromRemotePayload o)⟩) :=
  ⟨fun _ _ => rfl, fun _ _ => rfl⟩

/-- C7 counterexample: a Delete whose remote call reports not-found
returns an error diagnostic with the identity still stored, while the
claim demands success with the identity cleared. -/
theorem C7_counterexample :
    resourceNomadClusterDelete "abc123" (Except.error RemoteErr.notFound) =
      ⟨true, "abc123"⟩ := rfl

/-- C7 (amended): Delete treats not-found like every other remote
failure: it returns an error and leaves the identity stored; only a
successful remote Delete returns success and clears the identity —
delete is not idempotent over an already-absent resource. -/
theorem C7_amended_theorem :
    (∀ (id : String) (e : RemoteErr),
        resourceNomadClusterDelete id (Except.error e) = ⟨true, id⟩) ∧
      (∀ id : String,
        resourceNomadClusterDelete id (Except.ok ()) = ⟨false, ""⟩) :=
  ⟨fun _ _ => rfl, fun _ => rfl⟩

/-- C8 counterexample: instance_type is mutable (not ForceNew in the
schema), yet an Update in which exactly it differs issues no update
payload at all — the update path inspects only server_count,
client_count and tags — while the claim demands a payload containing
exactly the field's remote name. -/
theorem C8_counterexample :
    nomadForceNew "instance_type" = false ∧
      ({nomadSpecBase with instance_type := "c2-7"} : NomadSpec).instance_type ≠
        nomadSpecBase.instance_type ∧
      nomadUpdatePayload {nomadSpecBase with instance_type := "c2-7"}
        nomadSpecBase = none :=
  ⟨rfl, by decide, rfl⟩

/-- C8 (amended): the update path inspects only server_count,
client_count and tags (node_count and tags for Vault); when exactly one
of these inspected attributes differs between desired and lastKnown, the
payload contains exactly that attribute's remote field name; a change
confined to any other mutable attribute yields no payload. -/
theorem C8_amended_theorem :
    (∀ d p : NomadSpec, d.server_count ≠ p.server_count →
        d.client_count = p.client_count → d.tags = p.tags →
        nomadUpdatePayload d p =
          some [("serverCount", JVal.int d.server_count)]) ∧
      (∀ d p : NomadSpec, d.server_count = p.server_count →
        d.client_count ≠ p.client_count → d.tags = p.tags →
        nomadUpdatePayload d p =
          some [("clientCount", JVal.int d.client_count)]) ∧
      (∀ d p : NomadSpec, d.server_count = p.server_count →
        d.client_count = p.client_count → d.tags ≠ p.tags →
        nomadUpdatePayload d p = some [("tags", jTags d.tags)]) ∧
      (∀ d p : VaultSpec, d.node_count ≠ p.node_count → d.tags = p.tags →
        vaultUpdatePayload d p =
          some [("nodeCount", JVal.int d.node_count)]) := by
  refine ⟨?_, ?_, ?_, ?_⟩
  · intro d p h1 h2 h3
    simp [nomadUpdatePayload, h1, h2, h3]
  · intro d p h1 h2 h3
    simp [nomadUpdatePayload, h1, h2, h3]
  · intro d p h1 h2 h3
    simp [nomadUpdatePayload, h1, h2, h3]
  · intro d p h1 h2
    simp [vaultUpdatePayload, h1, h2]

/-- Witness for C8, the claim's own scenario: desired server_count 5
against lastKnown 3 with all else equal yields exactly the serverCount
field. -/
theorem C8_witness :
    nomadUpdatePayload {nomadSpecBase with server_count := 5}
        {nomadSpecBase with server_count := 3} =
      some [("serverCount", JVal.int 5)] :=
  C8_amended_theorem.1 {nomadSpecBase with server_count := 5}
    {nomadSpecBase with server_count := 3} (by decide) rfl rfl

/-- C9: for every Nomad and every Vault specification, translating the
settable attributes to the remote camelCase payload and reading that
payload back repopulates every non-computed field unchanged — the two
per-field name tables are mutually inverse. -/
theorem C9_roundtrip :
    (∀ s : NomadSpec, nomadFromRemotePayload (nomadToRemotePayload s) = s) ∧
      (∀ v : VaultSpec, vaultFromRemotePayload (vaultToRemotePayload v) = v) := by
  constructor
  · intro s
    cases s with
    | mk a b c d e f g h i j k l m ts =>
        have h0 : nomadFromRemotePayload
            (nomadToRemotePayload ⟨a, b, c, d, e, f, g, h, i, j, k, l, m, ts⟩) =
            ⟨a, b, c, d, e, f, g, h, i, j, k, l, m,
             asTags (some (jTags ts))⟩ := rfl
        rw [h0, asTags_jTags]
  · intro v
    cases v with
    | mk a b c d e f g h i j k ts =>
        have h0 : vaultFromRemotePayload
            (vaultToRemotePayload ⟨a, b, c, d, e, f, g, h, i, j, k, ts⟩) =
            ⟨a, b, c, d, e, f, g, h, i, j, k,
             asTags (some (jTags ts))⟩ := rfl
        rw [h0, asTags_jTags]
